import Mathlib

/-!
# Verification of the Move Analysis & Commentary Pipeline (src/main.py)

Shallow embedding of the FastAPI chess-analysis backend.  The rules engine
(python-chess), the Stockfish process and the Ollama HTTP backend are external
collaborators (spec sections 2 and 6); they are modelled by small data types
(board layout plus oracle answers, engine call outcomes as `Except`, backend
call outcome as `Except`), while every piece of decision logic that lives in
src/main.py — legality gate, SAN-before-push ordering, piece-name lookup,
score extraction and sign normalization, phase and quality classification,
commentary fallbacks, ledger append, reply handling, engine shutdown — is
translated line by line.
-/

namespace ChessAI

/-- Side colour (python-chess `chess.WHITE` / `chess.BLACK`). -/
inductive Color where
  | white
  | black
deriving DecidableEq, Repr

/-- The opposite colour; models the turn alternation performed by
`board.push` in the rules oracle. -/
def Color.other : Color → Color
  | .white => .black
  | .black => .white

/-- Piece kinds (python-chess `chess.PAWN` … `chess.KING`). -/
inductive PieceType where
  | pawn
  | knight
  | bishop
  | rook
  | queen
  | king
deriving DecidableEq, Repr

/-- Python `str.upper()` restricted to ASCII, spelled with structural list
recursion so that concrete instances reduce. -/
def pyUpper (s : String) : String :=
  String.mk (s.data.map Char.toUpper)

/-- Lower-case algebraic letter of a piece kind (python-chess symbols). -/
def PieceType.lower : PieceType → String
  | .pawn => "p"
  | .knight => "n"
  | .bishop => "b"
  | .rook => "r"
  | .queen => "q"
  | .king => "k"

/-- A coloured piece (python-chess `chess.Piece`). -/
structure Piece where
  pt : PieceType
  color : Color
deriving DecidableEq, Repr

/-- `Piece.symbol()` from python-chess: upper case for white, lower case for
black. -/
def Piece.symbol (p : Piece) : String :=
  match p.color with
  | .white => pyUpper p.pt.lower
  | .black => p.pt.lower

/-- A move as decoded by `chess.Move.from_uci`: from-square, to-square,
optional promotion piece type.  Squares are numbered 0–63 as in python-chess. -/
structure Move where
  fromSq : Nat
  toSq : Nat
  promo : Option PieceType
deriving DecidableEq, Repr

/-- Algebraic name of a square number (file letter then rank digit), as used
by UCI encoding. -/
def squareName (sq : Nat) : String :=
  String.mk [Char.ofNat (97 + sq % 8), Char.ofNat (49 + sq / 8)]

/-- `Move.uci()` from python-chess: from-square name, to-square name, and the
lower-case promotion letter when present. -/
def Move.uci (m : Move) : String :=
  squareName m.fromSq ++ squareName m.toSq ++
    (match m.promo with
     | some pt => pt.lower
     | none => "")

/-- Model of the external rules oracle's board (python-chess `chess.Board`):
the square→piece mapping (index = square number), the side to move, and the
oracle's legal-move answer for this position (spec section 6: "enumerate legal
moves from a Position; decide membership of a Move in that set").  Castling,
en-passant and clock metadata are omitted: no line of src/main.py reads them. -/
structure Board where
  squares : List (Option Piece)
  turn : Color
  legal : List Move
deriving DecidableEq, Repr

/-- `board.piece_at(square)` from the rules oracle. -/
def Board.pieceAt (b : Board) (sq : Nat) : Option Piece :=
  (b.squares.get? sq).getD none

/-- `len(board.pieces(pt, c))` from the rules oracle: number of pieces of the
given kind and colour on the board. -/
def Board.pieces (b : Board) (pt : PieceType) (c : Color) : Nat :=
  (b.squares.filterMap id).countP (fun p => p.pt == pt && p.color == c)

/-- Model of the rules oracle's `board.push(move)`: the moved piece (promoted
if the move carries a promotion) lands on the to-square, the from-square is
cleared, and the side to move alternates.  Castling rook relocation and
en-passant capture are not modelled (no claim depends on them); the oracle's
legal-move answer for the successor position is not recomputed because
src/main.py never queries legality after its single check at line 133. -/
def Board.push (b : Board) (m : Move) : Board :=
  let moved : Option Piece :=
    match b.pieceAt m.fromSq, m.promo with
    | some p, some pt => some { pt := pt, color := p.color }
    | some p, none => some p
    | none, _ => none
  { squares := (b.squares.set m.fromSq none).set m.toSq moved
    turn := b.turn.other
    legal := [] }

/-- Model of the rules oracle's `board.fen()`: a textual serialization of the
piece placement and the side to move.  Its exact format is external; the
pipeline only passes it through, so any injective-enough encoding serves. -/
def Board.fen (b : Board) : String :=
  String.join (b.squares.map (fun sq =>
    match sq with
    | some p => p.symbol
    | none => "1")) ++ " " ++
  (match b.turn with
   | .white => "w"
   | .black => "b")

/-- Model of the rules oracle's `board.san(move)` (called at line 137, before
the move is applied).  True SAN grammar is external to src/main.py and nothing
in the pipeline branches on the rendered text, so the model simply tags the
UCI text with the moving piece's symbol. -/
def sanRender (b : Board) (m : Move) : String :=
  (match b.pieceAt m.fromSq with
   | some p => p.symbol
   | none => "") ++ m.uci

/-- `PIECE_NAMES` dictionary, src/main.py lines 17–24. -/
def PIECE_NAMES : List (String × String) :=
  [("P", "pawn"), ("N", "knight"), ("B", "bishop"),
   ("R", "rook"), ("Q", "queen"), ("K", "king")]

/-- Python `dict.get(key, default)` on a small string dictionary. -/
def dictGet (d : List (String × String)) (k dflt : String) : String :=
  match d.find? (fun kv => kv.1 == k) with
  | some kv => kv.2
  | none => dflt

/-- Line 140: `PIECE_NAMES.get(piece.symbol().upper(), "piece") if piece else
"piece"`. -/
def piece_name_of (piece : Option Piece) : String :=
  match piece with
  | some p => dictGet PIECE_NAMES (pyUpper p.symbol) "piece"
  | none => "piece"

/-- `game_phase`, src/main.py lines 49–59: total queen/rook/bishop/knight
count over both colours (the local `piece_count`). -/
def piece_count (board : Board) : Nat :=
  ([PieceType.queen, PieceType.rook, PieceType.bishop, PieceType.knight].map
    (fun p => board.pieces p Color.white + board.pieces p Color.black)).sum

/-- `game_phase`, src/main.py lines 49–59. -/
def game_phase (board : Board) : String :=
  if piece_count board > 10 then "opening"
  else if piece_count board > 4 then "middlegame"
  else "endgame"

/-- `move_quality`, src/main.py lines 62–71. -/
def move_quality (eval_change : Int) : String :=
  if eval_change ≤ -300 then "blunder"
  else if eval_change ≤ -100 then "mistake"
  else if eval_change ≤ -30 then "inaccuracy"
  else if eval_change ≥ 80 then "strong"
  else "neutral"

/-- Outcome of the Ollama HTTP call made inside `explain_move` (lines
111–120): `.error` models any exception raised by `requests.post` or by
response decoding (transport error, timeout, malformed body); `.ok r` models a
completed call whose JSON body's "response" field is `r` (`none` when the
field is missing, in which case line 120's `.get("response", "")` supplies
`""`). -/
abbrev BackendOutcome := Except Unit (Option String)

/-- Python `str.strip()`: remove leading and trailing whitespace.  Spelled
with structural list recursion so that concrete instances reduce. -/
def pyStrip (s : String) : String :=
  String.mk (((s.data.dropWhile Char.isWhitespace).reverse.dropWhile
    Char.isWhitespace).reverse)

/-- `explain_move`, src/main.py lines 73–122.  The prompt string (lines
81–108) is assembled from the five inputs; the backend's behaviour is
modelled by `backend` independently of the prompt text, and the fixed
instruction text is elided because no claim inspects it.  Line 120 returns the
trimmed "response" field or the fallback "Move noted." when that trims to the
empty string; line 122 returns "No explanation available." on any exception. -/
def explain_move (san piece : String) (eval_change : Int) (phase quality : String)
    (backend : BackendOutcome) : String :=
  let _prompt := "Move: " ++ san ++ " Piece: " ++ piece ++ " Phase: " ++ phase ++
    " Quality: " ++ quality ++ " Eval delta: " ++ toString eval_change
  match backend with
  | .ok r =>
    let t := pyStrip (r.getD "")
    if t = "" then "Move noted." else t
  | .error _ => "No explanation available."

/-- An engine score as reported in `info["score"].relative` (python-chess
`chess.engine.Score`): either a centipawn value or a forced mate in a signed
number of moves (positive: the side to move mates; zero or negative: the side
to move is mated). -/
inductive Score where
  | cp (v : Int)
  | mate (moves : Int)
deriving DecidableEq, Repr

/-- python-chess `Score.score(mate_score=m)` (external collaborator, invoked
at src/main.py line 154 with `mate_score=10000`): a centipawn score is
returned as is; `Mate(n)` becomes `m - n` when `n > 0` and `-m - n`
otherwise. -/
def Score.score (s : Score) (mate_score : Int) : Int :=
  match s with
  | .cp v => v
  | .mate n => if 0 < n then mate_score - n else -mate_score - n

/-- Python's `x or 0` on an integer: the identity, spelled with the explicit
falsy-zero test to mirror line 154. -/
def orZero (v : Int) : Int :=
  if v = 0 then 0 else v

/-- Lines 151–154: `evaluation = 0`, then if a score was reported,
`evaluation = score_info.relative.score(mate_score=10000) or 0`.
`score_info` is `none` when `info.get("score")` finds no score. -/
def extract_evaluation (score_info : Option Score) : Int :=
  match score_info with
  | some s => orZero (s.score 10000)
  | none => 0

/-- Lines 156–158: `if board.turn == chess.BLACK: evaluation = -evaluation`,
applied to the position *after* the user's move was pushed. -/
def normalize_eval (turnAfter : Color) (evaluation : Int) : Int :=
  if turnAfter = Color.black then -evaluation else evaluation

/-- Behaviour of the per-request Stockfish session (spec section 4.2), namely
the outcomes of the three awaited calls src/main.py makes on it:
`popen_uci` (line 146), `engine.analyse` (line 149, projected to the relative
score carried by `info["score"]`, `none` when no score is reported) and
`engine.play` (line 180, projected to `result.move`).  `.error` on a
component models that call raising an exception. -/
structure EngineBehavior where
  start : Except Unit Unit
  analyseScore : Except Unit (Option Score)
  playMove : Except Unit (Option Move)

/-- One ledger entry, the dict appended to `move_log` at lines 171–177. -/
structure LedgerEntry where
  move : String
  piece : String
  phase : String
  quality : String
  explanation : String
deriving DecidableEq, Repr

/-- `move_log`, src/main.py line 39: the process-wide history, empty at
process start. -/
def move_log : List LedgerEntry := []

/-- The JSON payload returned by the `/analyze_and_move` handler: either the
illegal-move error object (line 134) or the success object of lines 189–194. -/
inductive Response where
  | err (msg : String)
  | success (fen : String) (ai_move : String) (explanation : String)
      (history : List LedgerEntry)
deriving DecidableEq, Repr

/-- Observable effects of one request, used to state the claims about
side effects: whether `popen_uci` was invoked, whether `engine.quit()` ran,
and whether the commentary backend was called. -/
structure Trace where
  engineStarted : Bool
  engineQuit : Bool
  backendCalled : Bool
deriving DecidableEq, Repr

/-- Result of one request: the handler's outcome (`.error` when an engine
call's exception propagates out of the handler), the `move_log` contents
after the request, and the effect trace. -/
structure RunResult where
  outcome : Except Unit Response
  log : List LedgerEntry
  trace : Trace

/-- `analyze_and_move`, src/main.py lines 126–194, with the process-global
`move_log` threaded explicitly as `log`.  The body follows the source line by
line: legality gate (130–134), SAN rendered before the push (137), piece name
from the pre-move board (139–140), push (143), engine start (146), analysis
and score extraction (149–154), sign normalization (156–158), phase and
quality (160–161), commentary (163–169), ledger append (171–177), engine
reply (179–185), shutdown (187) and response (189–194).  There is no
`try/finally` in the source, so an exception from `analyse` or `play`
propagates immediately: the remaining statements — including `engine.quit()`
— do not run on those paths. -/
def analyze_and_move (board : Board) (mv : Move) (eng : EngineBehavior)
    (backend : BackendOutcome) (log : List LedgerEntry) : RunResult :=
  if mv ∉ board.legal then
    { outcome := .ok (.err "Illegal move."), log := log
      trace := { engineStarted := false, engineQuit := false, backendCalled := false } }
  else
    let san := sanRender board mv
    let piece := board.pieceAt mv.fromSq
    let piece_name := piece_name_of piece
    let board1 := board.push mv
    match eng.start with
    | .error e =>
      { outcome := .error e, log := log
        trace := { engineStarted := true, engineQuit := false, backendCalled := false } }
    | .ok _ =>
      match eng.analyseScore with
      | .error e =>
        { outcome := .error e, log := log
          trace := { engineStarted := true, engineQuit := false, backendCalled := false } }
      | .ok score_info =>
        let evaluation := extract_evaluation score_info
        let evaluation := normalize_eval board1.turn evaluation
        let phase := game_phase board1
        let quality := move_quality evaluation
        let explanation := explain_move san piece_name evaluation phase quality backend
        let log2 := log ++ [{ move := san, piece := piece_name, phase := phase,
                              quality := quality, explanation := explanation }]
        match eng.playMove with
        | .error e =>
          { outcome := .error e, log := log2
            trace := { engineStarted := true, engineQuit := false, backendCalled := true } }
        | .ok result_move =>
          match result_move with
          | none =>
            { outcome := .ok (.success board1.fen "" explanation log2), log := log2
              trace := { engineStarted := true, engineQuit := true, backendCalled := true } }
          | some rm =>
            { outcome := .ok (.success ((board1.push rm).fen) rm.uci explanation log2)
              log := log2
              trace := { engineStarted := true, engineQuit := true, backendCalled := true } }

/-- One inbound request together with the behaviour of the external
collaborators it will encounter. -/
structure Request where
  board : Board
  mv : Move
  eng : EngineBehavior
  backend : BackendOutcome

/-- A process run: requests served in order against the shared `move_log`,
returning the final ledger and the per-request outcomes. -/
def runRequests : List Request → List LedgerEntry → List LedgerEntry × List (Except Unit Response)
  | [], log => (log, [])
  | r :: rs, log =>
    let res := analyze_and_move r.board r.mv r.eng r.backend log
    let rest := runRequests rs res.log
    (rest.1, res.outcome :: rest.2)

/-- Whether a request outcome is the success payload of lines 189–194. -/
def isSuccess : Except Unit Response → Bool
  | .ok (.success _ _ _ _) => true
  | _ => false

/-- The fen field of a success outcome. -/
def respFen : Except Unit Response → Option String
  | .ok (.success f _ _ _) => some f
  | _ => none

/-- The ai_move field of a success outcome. -/
def respAiMove : Except Unit Response → Option String
  | .ok (.success _ a _ _) => some a
  | _ => none

/-- The history field of a success outcome. -/
def respHistory : Except Unit Response → Option (List LedgerEntry)
  | .ok (.success _ _ _ h) => some h
  | _ => none

/-- The ledger entry a request contributes: `some` exactly when the request
passes the legality gate and the engine start and analysis succeed (the
append at line 171 is reached), in which case it is the dict of lines
171–177 recomputed from the request's inputs; `none` otherwise. -/
def ledgerEntryOf (r : Request) : Option LedgerEntry :=
  if r.mv ∉ r.board.legal then none
  else
    match r.eng.start, r.eng.analyseScore with
    | .ok _, .ok score_info =>
      let san := sanRender r.board r.mv
      let piece_name := piece_name_of (r.board.pieceAt r.mv.fromSq)
      let board1 := r.board.push r.mv
      let evaluation := normalize_eval board1.turn (extract_evaluation score_info)
      let phase := game_phase board1
      let quality := move_quality evaluation
      some { move := san, piece := piece_name, phase := phase, quality := quality,
             explanation := explain_move san piece_name evaluation phase quality r.backend }
    | _, _ => none

/-! ## Fixtures: small concrete positions and collaborator behaviours -/

/-- A pawn move from square a1 to b1 (squares only matter as indices here). -/
def mv0 : Move := { fromSq := 0, toSq := 1, promo := none }

/-- A one-piece position with White (the human) to move and `mv0` legal. -/
def bSmall : Board :=
  { squares := [some { pt := .pawn, color := .white }], turn := .white, legal := [mv0] }

/-- The mirrored position with Black (the human) to move and `mv0` legal. -/
def bBlackHuman : Board :=
  { squares := [some { pt := .pawn, color := .black }], turn := .black, legal := [mv0] }

/-- A position whose legal-move set is empty: every move is illegal. -/
def bNoLegal : Board := { squares := [], turn := .white, legal := [] }

/-- A fully co-operative engine: starts, reports +150 centipawns, no reply. -/
def engAllOk : EngineBehavior :=
  { start := .ok (), analyseScore := .ok (some (.cp 150)), playMove := .ok none }

/-- A request whose engine analysis succeeds but whose reply request raises. -/
def reqPlayFail : Request :=
  { board := bSmall, mv := mv0
    eng := { start := .ok (), analyseScore := .ok (some (.cp 0)), playMove := .error () }
    backend := .ok none }

/-- A request that completes successfully end to end. -/
def reqOk : Request := { board := bSmall, mv := mv0, eng := engAllOk, backend := .ok none }

/-- A request rejected by the legality gate. -/
def reqIllegal : Request := { board := bNoLegal, mv := mv0, eng := engAllOk, backend := .ok none }

/-! ## Helper lemmas -/

/-- Python's `x or 0` is the identity on integers. -/
theorem orZero_eq (v : Int) : orZero v = v := by
  by_cases h : v = 0 <;> simp [orZero, h]

/-- Pushing a move alternates the side to move. -/
theorem Board.push_turn (b : Board) (m : Move) : (b.push m).turn = b.turn.other := rfl

/-! ## Claim theorems -/

/-- Claim C1 (confirmed): for every position and every move outside its
legal-move set, the handler returns exactly the payload
`{error: "Illegal move."}`, starts no engine process, makes no
commentary-backend call, and leaves the move ledger unchanged. -/
theorem illegal_move_no_side_effects (board : Board) (mv : Move)
    (eng : EngineBehavior) (backend : BackendOutcome) (log : List LedgerEntry)
    (h : mv ∉ board.legal) :
    analyze_and_move board mv eng backend log =
      { outcome := .ok (.err "Illegal move."), log := log
        trace := { engineStarted := false, engineQuit := false, backendCalled := false } } := by
  simp [analyze_and_move, h]

/-- Witness for C1 at a concrete rejected request. -/
theorem illegal_move_no_side_effects_witness :
    analyze_and_move bNoLegal mv0 engAllOk (.ok none) move_log =
      { outcome := .ok (.err "Illegal move."), log := move_log
        trace := { engineStarted := false, engineQuit := false, backendCalled := false } } :=
  illegal_move_no_side_effects bNoLegal mv0 engAllOk (.ok none) move_log (by decide)

/-- Claim C2 (confirmed): `move_quality` is a function of the evaluation delta
alone (hence deterministic) and its thresholds are boundary-exact with
first-matching-branch semantics: the five intervals partition the integers
exactly as the claim lists them. -/
theorem move_quality_thresholds : ∀ e : Int,
    (e ≤ -300 → move_quality e = "blunder") ∧
    (-300 < e → e ≤ -100 → move_quality e = "mistake") ∧
    (-100 < e → e ≤ -30 → move_quality e = "inaccuracy") ∧
    (80 ≤ e → move_quality e = "strong") ∧
    (-30 < e → e < 80 → move_quality e = "neutral") := by
  intro e
  refine ⟨?_, ?_, ?_, ?_, ?_⟩ <;> intros <;> simp only [move_quality] <;>
    split_ifs <;> first | rfl | (exfalso; omega)

/-- Witness for C2 at the eight boundary probes the claim lists. -/
theorem move_quality_thresholds_witness :
    move_quality (-300) = "blunder" ∧ move_quality (-299) = "mistake" ∧
    move_quality (-100) = "mistake" ∧ move_quality (-99) = "inaccuracy" ∧
    move_quality (-30) = "inaccuracy" ∧ move_quality (-29) = "neutral" ∧
    move_quality 79 = "neutral" ∧ move_quality 80 = "strong" :=
  ⟨(move_quality_thresholds (-300)).1 (by decide),
   (move_quality_thresholds (-299)).2.1 (by decide) (by decide),
   (move_quality_thresholds (-100)).2.1 (by decide) (by decide),
   (move_quality_thresholds (-99)).2.2.1 (by decide) (by decide),
   (move_quality_thresholds (-30)).2.2.1 (by decide) (by decide),
   (move_quality_thresholds (-29)).2.2.2.2 (by decide) (by decide),
   (move_quality_thresholds 79).2.2.2.2 (by decide) (by decide),
   (move_quality_thresholds 80).2.2.2.1 (by decide)⟩

/-- Claim C3 counterexample: the human plays Black (`bBlackHuman.turn =
black`), so after the push it is the opponent's (White's) turn; the engine
reports the raw relative score s = 150.  The claim demands the normalized
evaluation −150, which would classify as "mistake", but lines 156–158 negate
only when `board.turn == BLACK`, so the evaluation stays 150 and the recorded
quality is "strong": `normalize_eval` normalizes to White's perspective, not
to the mover's. -/
theorem normalization_not_mover_relative_cex :
    (analyze_and_move bBlackHuman mv0
        { start := .ok (), analyseScore := .ok (some (.cp 150)), playMove := .ok none }
        (.ok none) move_log).log.map LedgerEntry.quality = ["strong"] ∧
    move_quality (-150) = "mistake" ∧
    normalize_eval Color.white 150 = 150 ∧ ((150 : Int) ≠ -150) := by
  decide

/-- Claim C3 (corrected): the evaluation fed to classification and commentary
is negated exactly when the side to move in the post-move position is Black —
it is normalized to White's perspective.  This equals the perspective of the
human who just moved when that human played White (post-move turn Black,
evaluation −s), but when the human played Black the evaluation stays s, the
raw score of the opponent to move. -/
theorem normalization_white_perspective (board : Board) (mv : Move) (s : Int)
    (rep : Option Move) (backend : BackendOutcome) (log : List LedgerEntry)
    (h : mv ∈ board.legal) :
    (analyze_and_move board mv
        { start := .ok (), analyseScore := .ok (some (.cp s)), playMove := .ok rep }
        backend log).log.map LedgerEntry.quality =
      log.map LedgerEntry.quality ++
        [move_quality (if board.turn = Color.white then -s else s)] := by
  cases hb : board.turn <;> cases rep <;>
    simp [analyze_and_move, h, Board.push_turn, hb, Color.other, normalize_eval,
      extract_evaluation, Score.score, orZero_eq]

/-- Witness for C3's corrected statement: White human, raw score +150,
recorded quality is that of −150. -/
theorem normalization_white_perspective_witness :
    (analyze_and_move bSmall mv0
        { start := .ok (), analyseScore := .ok (some (.cp 150)), playMove := .ok none }
        (.ok none) move_log).log.map LedgerEntry.quality =
      move_log.map LedgerEntry.quality ++
        [move_quality (if bSmall.turn = Color.white then -150 else 150)] :=
  normalization_white_perspective bSmall mv0 150 none (.ok none) move_log (by decide)

/-- Claim C4 (confirmed): the commentary generator is a total function — it
never propagates an error to the request — and its two fallbacks are exactly
as claimed: any exception in the backend call yields
"No explanation available.", a completed call whose response text trims to
the empty string yields "Move noted.", and otherwise the trimmed response
text itself is returned. -/
theorem commentary_fallbacks (san piece : String) (eval_change : Int)
    (phase quality : String) :
    (∀ e : Unit,
      explain_move san piece eval_change phase quality (.error e) =
        "No explanation available.") ∧
    (∀ r : Option String, pyStrip (r.getD "") = "" →
      explain_move san piece eval_change phase quality (.ok r) = "Move noted.") ∧
    (∀ r : Option String, pyStrip (r.getD "") ≠ "" →
      explain_move san piece eval_change phase quality (.ok r) = pyStrip (r.getD "")) := by
  refine ⟨fun e => rfl, fun r h => ?_, fun r h => ?_⟩ <;> simp [explain_move, h]

/-- Witness for C4: a raised backend call, and a successful call whose body
carries no usable text. -/
theorem commentary_fallbacks_witness :
    explain_move "e4" "pawn" 0 "opening" "neutral" (.error ()) =
      "No explanation available." ∧
    explain_move "e4" "pawn" 0 "opening" "neutral" (.ok none) = "Move noted." ∧
    explain_move "e4" "pawn" 0 "opening" "neutral" (.ok (some " ")) = "Move noted." :=
  ⟨(commentary_fallbacks "e4" "pawn" 0 "opening" "neutral").1 (),
   (commentary_fallbacks "e4" "pawn" 0 "opening" "neutral").2.1 none (by decide),
   (commentary_fallbacks "e4" "pawn" 0 "opening" "neutral").2.1 (some " ") (by decide)⟩

/-- Claim C5 (code bug): the spec promises that the engine session's
`quit()` runs on every path, but src/main.py has no `try/finally`: when
`engine.analyse` (line 149) or `engine.play` (line 180) raises, the exception
propagates out of the handler before line 187 and `engine.quit()` never runs
— the engine process leaks.  The first two conjuncts evaluate the pipeline on
a started session whose analyse (respectively play) call fails: the session
was started but never quit; the third shows quit does run on the success
path. -/
theorem engine_quit_skipped_on_failure :
    (analyze_and_move bSmall mv0
        { start := .ok (), analyseScore := .error (), playMove := .ok none }
        (.ok none) move_log).trace =
      { engineStarted := true, engineQuit := false, backendCalled := false } ∧
    (analyze_and_move bSmall mv0
        { start := .ok (), analyseScore := .ok (some (.cp 0)), playMove := .error () }
        (.ok none) move_log).trace =
      { engineStarted := true, engineQuit := false, backendCalled := true } ∧
    (analyze_and_move bSmall mv0 engAllOk (.ok none) move_log).trace.engineQuit = true := by
  decide

/-- Claim C6 (confirmed): `game_phase` is a pure function of the total count
of queens, rooks, bishops and knights of both sides (boards with equal counts
get equal phases, so pawns, kings and piece arrangement are irrelevant), the
thresholds are exactly count > 10 → "opening", 4 < count ≤ 10 →
"middlegame", count ≤ 4 → "endgame", and the result is invariant under
changing only the side to move. -/
theorem game_phase_material_only :
    (∀ b b' : Board, piece_count b = piece_count b' → game_phase b = game_phase b') ∧
    (∀ (b : Board) (c : Color), game_phase { b with turn := c } = game_phase b) ∧
    (∀ b : Board,
      (10 < piece_count b → game_phase b = "opening") ∧
      (4 < piece_count b → piece_count b ≤ 10 → game_phase b = "middlegame") ∧
      (piece_count b ≤ 4 → game_phase b = "endgame")) := by
  refine ⟨fun b b' h => by simp [game_phase, h], fun b c => rfl, fun b => ⟨?_, ?_, ?_⟩⟩ <;>
    intros <;> simp only [game_phase] <;> split_ifs <;> first | rfl | (exfalso; omega)

/-- Witness for C6 at a concrete one-pawn board (count 0): endgame, and the
phase is unchanged when only the side to move flips. -/
theorem game_phase_material_only_witness :
    game_phase bSmall = "endgame" ∧
    game_phase { bSmall with turn := Color.black } = game_phase bSmall :=
  ⟨(game_phase_material_only.2.2 bSmall).2.2 (by decide),
   game_phase_material_only.2.1 bSmall Color.black⟩

/-- Claim C7 counterexample: an engine report of mate in 1 for the side to
move is extracted (line 154, `score(mate_score=10000)`) as 10000 − 1 = 9999,
not as the exact sentinel value ±10000 the claim states. -/
theorem mate_sentinel_cex :
    extract_evaluation (some (.mate 1)) = 9999 ∧
    ((9999 : Int) ≠ 10000) ∧ ((9999 : Int) ≠ -10000) := by
  decide

/-- Claim C7 (corrected): if the engine responds without a score the
evaluation is 0; a centipawn score is used as is; a forced mate in n is
mapped to the sentinel-bounded value 10000 − n when the side to move mates
(n > 0) and −10000 − n otherwise — a well-defined signed integer whose sign
is that of the mating side (for mate distances below the sentinel) and whose
magnitude is anchored at the bound 10000 rather than equal to it. -/
theorem evaluation_extraction :
    extract_evaluation none = 0 ∧
    (∀ v : Int, extract_evaluation (some (.cp v)) = v) ∧
    (∀ n : Int, 0 < n → extract_evaluation (some (.mate n)) = 10000 - n) ∧
    (∀ n : Int, n ≤ 0 → extract_evaluation (some (.mate n)) = -10000 - n) ∧
    (∀ n : Int, 0 < n → n < 10000 → 0 < extract_evaluation (some (.mate n))) ∧
    (∀ n : Int, -10000 < n → n ≤ 0 → extract_evaluation (some (.mate n)) < 0) := by
  refine ⟨rfl, fun v => ?_, fun n h => ?_, fun n h => ?_, fun n h1 h2 => ?_,
    fun n h1 h2 => ?_⟩ <;>
    simp only [extract_evaluation, Score.score, orZero_eq] <;> split_ifs <;>
      first | rfl | omega

/-- Witness for C7's corrected statement at concrete engine reports. -/
theorem evaluation_extraction_witness :
    extract_evaluation (some (.cp 42)) = 42 ∧
    extract_evaluation (some (.mate 1)) = 10000 - 1 ∧
    extract_evaluation (some (.mate 0)) = -10000 - 0 ∧
    0 < extract_evaluation (some (.mate 1)) :=
  ⟨evaluation_extraction.2.1 42,
   evaluation_extraction.2.2.1 1 (by decide),
   evaluation_extraction.2.2.2.1 0 (by decide),
   evaluation_extraction.2.2.2.2.1 1 (by decide) (by decide)⟩

/-- One request changes the ledger exactly by appending its
`ledgerEntryOf` contribution (nothing when the legality gate rejects it or
the engine start/analysis fails, its analyzed-move entry otherwise — also on
the path where the later reply request fails). -/
theorem analyze_log_eq (r : Request) (log : List LedgerEntry) :
    (analyze_and_move r.board r.mv r.eng r.backend log).log =
      log ++ (ledgerEntryOf r).toList := by
  rcases r with ⟨b, mv, ⟨st, an, pl⟩, bk⟩
  by_cases h : mv ∈ b.legal
  · cases st <;> cases an <;> cases pl <;> first
      | (simp [analyze_and_move, ledgerEntryOf, h]; done)
      | (rename_i rep
         cases rep <;> simp [analyze_and_move, ledgerEntryOf, h])
  · simp [analyze_and_move, ledgerEntryOf, h]

/-- Over a whole run, the ledger is the initial one followed by the
contributions of the served requests, in order. -/
theorem runRequests_log (reqs : List Request) :
    ∀ log : List LedgerEntry,
      (runRequests reqs log).1 = log ++ reqs.filterMap ledgerEntryOf := by
  induction reqs with
  | nil => intro log; simp [runRequests]
  | cons r rs ih =>
    intro log
    simp only [runRequests]
    rw [ih, analyze_log_eq]
    cases hE : ledgerEntryOf r <;> simp [List.filterMap_cons, hE]

/-- Claim C8 counterexample: a request that passes the legality check and
whose engine analysis succeeds appends its entry at line 171 *before* the
reply request of line 180; when that reply call raises, the request is not
successful (its outcome is an error, not the success payload) yet the ledger
has grown.  After this run there are 0 successful requests but 1 ledger
entry, so "after N successful requests the ledger has exactly N entries" is
false. -/
theorem ledger_growth_without_success_cex :
    (runRequests [reqPlayFail] move_log).2.countP isSuccess = 0 ∧
    (runRequests [reqPlayFail] move_log).1.length = 1 := by
  decide

/-- Claim C8 (corrected): the ledger starts empty (`move_log = []`) and is
append-only — each request leaves the existing entries untouched and
contributes at most one new entry at the end; a request rejected by the
illegal-move check contributes nothing; and after any run the ledger is, in
chronological order, exactly the entries of those requests that passed the
legality check and whose engine start and analysis succeeded (such a request
appends its entry even when the subsequent reply call fails and the request
as a whole errors). -/
theorem ledger_append_only :
    (∀ (reqs : List Request),
      (runRequests reqs move_log).1 = move_log ++ reqs.filterMap ledgerEntryOf) ∧
    (∀ (r : Request) (log : List LedgerEntry),
      (analyze_and_move r.board r.mv r.eng r.backend log).log =
        log ++ (ledgerEntryOf r).toList) ∧
    (∀ (r : Request) (log : List LedgerEntry), r.mv ∉ r.board.legal →
      (analyze_and_move r.board r.mv r.eng r.backend log).log = log) :=
  ⟨fun reqs => runRequests_log reqs move_log,
   fun r log => analyze_log_eq r log,
   fun r log h => by
    rw [analyze_log_eq]
    rcases r with ⟨b, mv, eng, bk⟩
    simp_all [ledgerEntryOf]⟩

/-- Witness for C8's corrected statement: one successful request yields a
one-entry ledger, and a rejected request leaves the ledger unchanged. -/
theorem ledger_append_only_witness :
    (runRequests [reqOk] move_log).1 = move_log ++ [reqOk].filterMap ledgerEntryOf ∧
    (analyze_and_move reqIllegal.board reqIllegal.mv reqIllegal.eng reqIllegal.backend
        move_log).log = move_log :=
  ⟨ledger_append_only.1 [reqOk],
   ledger_append_only.2.2 reqIllegal move_log (by decide)⟩

/-- Claim C9 (confirmed): for every legal request (with a working engine
session), the request succeeds, the returned success payload carries the
ledger, and the newly appended ledger entry's piece field is
`piece_name_of` of the piece standing on the move's from-square *before* the
move; `piece_name_of` maps each of the six piece types of either colour to
its lowercase English name and an empty from-square to the literal "piece"
(the request succeeding regardless). -/
theorem piece_name_reported (board : Board) (mv : Move) (score_info : Option Score)
    (rep : Option Move) (backend : BackendOutcome) (log : List LedgerEntry)
    (h : mv ∈ board.legal) :
    isSuccess (analyze_and_move board mv
        { start := .ok (), analyseScore := .ok score_info, playMove := .ok rep }
        backend log).outcome = true ∧
    (analyze_and_move board mv
        { start := .ok (), analyseScore := .ok score_info, playMove := .ok rep }
        backend log).log.map LedgerEntry.piece =
      log.map LedgerEntry.piece ++ [piece_name_of (board.pieceAt mv.fromSq)] ∧
    respHistory (analyze_and_move board mv
        { start := .ok (), analyseScore := .ok score_info, playMove := .ok rep }
        backend log).outcome =
      some (analyze_and_move board mv
        { start := .ok (), analyseScore := .ok score_info, playMove := .ok rep }
        backend log).log ∧
    (∀ c : Color,
      piece_name_of (some { pt := .pawn, color := c }) = "pawn" ∧
      piece_name_of (some { pt := .knight, color := c }) = "knight" ∧
      piece_name_of (some { pt := .bishop, color := c }) = "bishop" ∧
      piece_name_of (some { pt := .rook, color := c }) = "rook" ∧
      piece_name_of (some { pt := .queen, color := c }) = "queen" ∧
      piece_name_of (some { pt := .king, color := c }) = "king") ∧
    piece_name_of none = "piece" := by
  refine ⟨?_, ?_, ?_, fun c => by cases c <;> decide, rfl⟩ <;>
    cases rep <;> simp [analyze_and_move, h, isSuccess, respHistory]

/-- Witness for C9: a concrete legal pawn move succeeds and is recorded with
piece name "pawn". -/
theorem piece_name_reported_witness :
    (analyze_and_move bSmall mv0
        { start := .ok (), analyseScore := .ok none, playMove := .ok none }
        (.ok none) move_log).log.map LedgerEntry.piece =
      move_log.map LedgerEntry.piece ++ [piece_name_of (bSmall.pieceAt mv0.fromSq)] :=
  (piece_name_reported bSmall mv0 none none (.ok none) move_log (by decide)).2.1

/-- Claim C10 (confirmed): on a working session, when the engine's reply
request returns no move the response's ai_move field is exactly "" and the
returned FEN is that of the position after only the human's move (the reply
step leaves the board unchanged); when a reply move exists the returned FEN
is that of the position after both moves and ai_move is the reply's UCI
encoding. -/
theorem reply_move_frame (board : Board) (mv : Move) (score_info : Option Score)
    (backend : BackendOutcome) (log : List LedgerEntry) (h : mv ∈ board.legal) :
    (respFen (analyze_and_move board mv
        { start := .ok (), analyseScore := .ok score_info, playMove := .ok none }
        backend log).outcome = some ((board.push mv).fen) ∧
     respAiMove (analyze_and_move board mv
        { start := .ok (), analyseScore := .ok score_info, playMove := .ok none }
        backend log).outcome = some "") ∧
    (∀ rm : Move,
      respFen (analyze_and_move board mv
          { start := .ok (), analyseScore := .ok score_info, playMove := .ok (some rm) }
          backend log).outcome = some (((board.push mv).push rm).fen) ∧
      respAiMove (analyze_and_move board mv
          { start := .ok (), analyseScore := .ok score_info, playMove := .ok (some rm) }
          backend log).outcome = some rm.uci) := by
  refine ⟨⟨?_, ?_⟩, fun rm => ⟨?_, ?_⟩⟩ <;>
    simp [analyze_and_move, h, respFen, respAiMove]

/-- Witness for C10: a concrete legal move with no engine reply, and the same
move with a concrete reply. -/
theorem reply_move_frame_witness :
    respFen (analyze_and_move bSmall mv0
        { start := .ok (), analyseScore := .ok none, playMove := .ok none }
        (.ok none) move_log).outcome = some ((bSmall.push mv0).fen) ∧
    respAiMove (analyze_and_move bSmall mv0
        { start := .ok (), analyseScore := .ok none, playMove := .ok (some mv0) }
        (.ok none) move_log).outcome = some mv0.uci :=
  ⟨((reply_move_frame bSmall mv0 none (.ok none) move_log (by decide)).1).1,
   ((reply_move_frame bSmall mv0 none (.ok none) move_log (by decide)).2 mv0).2⟩

end ChessAI
